import Mathlib

/-!
Verification of the KlingBot generation pipeline.

This file gives a shallow embedding of the pricing calculator
(src/utils/kling_api.py, class KlingPricing), the gateway payload builders
(src/utils/kling_api.py, class KlingClient), the Motion-Control wizard video
step (src/handlers/generate.py, mc_video_received), the balance/generation
database operations (src/database.py), the webhook callback handler
(src/webapp.py, kling_callback), the background polling loop
(src/handlers/generate.py, poll_task_and_send_result) and the confirm step
(src/handlers/generate.py, t2v_confirm), together with theorems about the
behaviour the documentation claims for them.

Modelling conventions:
* Python integers are Lean Int; Python strings used as status tags are Lean
  String; a prompt string is modelled as its list of characters (Python
  slicing p[:2500] slices by code point, which is List.take 2500).
* Database rows are records; only the fields the verified behaviour touches
  are modelled.  The single relevant user row is modelled as always present
  (the scenarios under study all have an existing user), so the user lookup
  inside update_user_balance cannot fail.
* Telegram / HTTP sends are pure effects recorded in an Effects record; they
  do not change the database state.
* Fallible provider responses are modelled by explicit sum types
  (ResultJson, GatewayOutcome, Option-valued fields).
-/

namespace KlingBot

/-! ### Pricing calculator (src/utils/kling_api.py, KlingPricing) -/

namespace KlingPricing

/-- Flat T2V/I2V price, 5 seconds, no sound (source constant 55). -/
def T2V_I2V_5S_NO_SOUND : Int := 55

/-- Flat T2V/I2V price, 10 seconds, no sound (source constant 110). -/
def T2V_I2V_10S_NO_SOUND : Int := 110

/-- Flat T2V/I2V price, 5 seconds, with sound (source constant 110). -/
def T2V_I2V_5S_WITH_SOUND : Int := 110

/-- Flat T2V/I2V price, 10 seconds, with sound (source constant 220). -/
def T2V_I2V_10S_WITH_SOUND : Int := 220

/-- Motion-Control per-second price for 720p (source constant 6). -/
def MC_720P_PER_SEC : Int := 6

/-- Motion-Control per-second price for 1080p (source constant 9). -/
def MC_1080P_PER_SEC : Int := 9

/-- Minimum billable Motion-Control duration (source constant 5). -/
def MC_MIN_DURATION : Int := 5

/-- Embedding of KlingPricing.get_t2v_i2v_price: a 2x2 table keyed by
duration (5 or 10) and the sound flag; any other duration falls through to
the 5-second row. -/
def get_t2v_i2v_price (duration : Int) (with_sound : Bool) : Int :=
  if duration = 5 then
    if with_sound then T2V_I2V_5S_WITH_SOUND else T2V_I2V_5S_NO_SOUND
  else if duration = 10 then
    if with_sound then T2V_I2V_10S_WITH_SOUND else T2V_I2V_10S_NO_SOUND
  else
    if with_sound then T2V_I2V_5S_WITH_SOUND else T2V_I2V_5S_NO_SOUND

/-- Embedding of KlingPricing.get_motion_control_price:
max(MC_MIN_DURATION, duration) * per-second rate chosen by the mode string
(every mode other than "1080p" is billed at the 720p rate). -/
def get_motion_control_price (duration : Int) (mode : String) : Int :=
  let effective_duration := max MC_MIN_DURATION duration
  let price_per_sec := if mode = "1080p" then MC_1080P_PER_SEC else MC_720P_PER_SEC
  effective_duration * price_per_sec

end KlingPricing

/-! ### Gateway payload builders (src/utils/kling_api.py, KlingClient) -/

/-- The input object of the T2V createTask payload (claim-relevant fields). -/
structure T2VInput where
  prompt : List Char
  duration : String
  sound : Bool
deriving DecidableEq

/-- Embedding of KlingClient.create_text_to_video's payload construction:
the prompt field is prompt[:2500]. -/
def create_text_to_video (prompt : List Char) (duration : String) (sound : Bool) : T2VInput :=
  { prompt := prompt.take 2500, duration := duration, sound := sound }

/-- The input object of the I2V createTask payload (claim-relevant fields). -/
structure I2VInput where
  prompt : List Char
  image_urls : List String
  duration : String
  sound : Bool
deriving DecidableEq

/-- Embedding of KlingClient.create_image_to_video's payload construction:
the prompt field is prompt[:2500] if prompt else "" (the empty string is
falsy in Python). -/
def create_image_to_video (image_url : String) (prompt : List Char) (duration : String)
    (sound : Bool) : I2VInput :=
  { prompt := if prompt.isEmpty then [] else prompt.take 2500,
    image_urls := [image_url], duration := duration, sound := sound }

/-- The input object of the Motion-Control createTask payload
(claim-relevant fields). -/
structure MCInput where
  prompt : List Char
  input_urls : List String
  video_urls : List String
  character_orientation : String
  mode : String
deriving DecidableEq

/-- Embedding of KlingClient.create_motion_control's payload construction:
the prompt field is prompt[:2500] if prompt else "". -/
def create_motion_control (input_image_url : String) (video_url : String) (prompt : List Char)
    (character_orientation : String) (mode : String) : MCInput :=
  { prompt := if prompt.isEmpty then [] else prompt.take 2500,
    input_urls := [input_image_url], video_urls := [video_url],
    character_orientation := character_orientation, mode := mode }

/-! ### Motion-Control wizard video step (src/handlers/generate.py) -/

/-- The FSM states of the Motion-Control flow (class MCStates). -/
inductive MCStep
  | waiting_image
  | waiting_video
  | waiting_prompt
  | waiting_orientation
  | waiting_mode
  | confirming
deriving DecidableEq

/-- The per-conversation wizard session data for the Motion-Control flow
(the aiogram FSMContext data plus the current state). -/
structure MCSession where
  image_url : Option String
  video_url : Option String
  video_duration : Option Int
  prompt : Option String
  step : MCStep
deriving DecidableEq

/-- Embedding of mc_video_received: duration is video.duration or 0; a
duration below 3 or above 30 is rejected (the session is returned unchanged
and the step re-prompted); otherwise the uploaded video URL and duration are
stored and the flow advances to the prompt step. -/
def mc_video_received (video_duration : Option Int) (uploaded_url : String)
    (s : MCSession) : MCSession :=
  let duration := video_duration.getD 0
  if duration < 3 then s
  else if duration > 30 then s
  else { s with video_url := some uploaded_url, video_duration := some duration,
                step := MCStep.waiting_prompt }

/-! ### Database operations (src/database.py, class Database) -/

/-- A row of the generations table (claim-relevant fields; status is one of
"pending", "success", "fail", "completed" — "processing" is also consulted
by the handlers). -/
structure Generation where
  status : String
  cost : Int
  video_url : Option String
  error_message : Option String
deriving DecidableEq

/-- The database state the reconciler touches: the one user's balance and
the one generation record under study (none before it is created). -/
structure DBState where
  balance : Int
  gen : Option Generation
deriving DecidableEq

/-- Embedding of Database.update_user_balance: add amount to the balance,
refusing (returning false and leaving the state unchanged) when the result
would be negative. -/
def update_user_balance (amount : Int) (st : DBState) : Bool × DBState :=
  let new_balance := st.balance + amount
  if new_balance < 0 then (false, st)
  else (true, { st with balance := new_balance })

/-- Embedding of Database.deduct_balance: update_user_balance(-amount). -/
def deduct_balance (amount : Int) (st : DBState) : Bool × DBState :=
  update_user_balance (-amount) st

/-- Python truthiness of an optional string: None and "" are falsy. -/
def truthy : Option String → Bool
  | none => false
  | some s => s != ""

/-- Embedding of Database.update_generation applied to one row: status is
always written; video_url and error_message are written only when truthy
(the source guards each with an if). -/
def apply_update_generation (status : String) (video_url : Option String)
    (error_message : Option String) (g : Generation) : Generation :=
  { g with
    status := status,
    video_url := if truthy video_url then video_url else g.video_url,
    error_message := if truthy error_message then error_message else g.error_message }

/-- Database.update_generation at the state level: updates the stored row if
it exists (the update is keyed by id in the source and is a no-op when the
row is absent). -/
def db_update_generation (status : String) (video_url error_message : Option String)
    (st : DBState) : DBState :=
  { st with gen := st.gen.map (apply_update_generation status video_url error_message) }

/-! ### Webhook callback handler (src/webapp.py, kling_callback) -/

/-- Side effects of one handler invocation: the refund amount actually
credited through update_user_balance, the number of deduct_balance
(re-debit) calls made, and whether a user notification was sent. -/
structure Effects where
  refund : Int
  redebits : Nat
  notified : Bool
deriving DecidableEq

/-- No side effects. -/
def noEffects : Effects := { refund := 0, redebits := 0, notified := false }

/-- The resultJson field of a completion payload as the handler sees it
after JSON parsing: absent (the source defaults it to an empty-object
string, yielding no resultUrls), a string json.loads rejects (the source
falls back to an empty dict), or a parsed resultUrls list. -/
inductive ResultJson
  | missing
  | malformed
  | parsed (resultUrls : List String)
deriving DecidableEq

/-- The video URL the callback handler extracts: the first element of
resultUrls when the list is non-empty, otherwise none. -/
def extract_video_url : ResultJson → Option String
  | ResultJson.missing => none
  | ResultJson.malformed => none
  | ResultJson.parsed urls => urls.head?

/-- The JSON body of a /callback/kling request (claim-relevant fields of
body.data). -/
structure CallbackBody where
  taskId : Option String
  state : Option String
  resultJson : ResultJson
  failMsg : Option String
deriving DecidableEq

/-- The handler's response classification. -/
inductive CallbackResult
  | errorIncomplete
  | errorNotFound
  | ok
deriving DecidableEq

/-- Embedding of the kling_callback webhook handler.  Control flow follows
the source: reject when taskId, state or the generationId query parameter
is falsy; reject when the generation row is not found; on state "success"
with a truthy extracted video URL, re-debit first when the current status is
"fail" (late recovery, the deduct result is only logged), notify when the
current status is "fail", "processing" or "pending", and in every case
write status "completed" with the video URL; on state "fail", unless the
current status is "completed", write status "fail" with the failure message
and refund the cost exactly when the current status was "processing" or
"pending".  Any other state falls through with no effect. -/
def kling_callback (body : CallbackBody) (generationId : Option String)
    (st : DBState) : DBState × Effects × CallbackResult :=
  if truthy body.taskId && truthy body.state && truthy generationId then
    match st.gen with
    | none => (st, noEffects, CallbackResult.errorNotFound)
    | some generation =>
      if body.state = some "success" then
        match extract_video_url body.resultJson with
        | some video_url =>
          if video_url = "" then (st, noEffects, CallbackResult.ok)
          else if generation.status = "fail" then
            let d := deduct_balance generation.cost st
            let st2 := db_update_generation "completed" (some video_url) none d.2
            (st2, { refund := 0, redebits := 1, notified := true }, CallbackResult.ok)
          else if generation.status = "processing" ∨ generation.status = "pending" then
            let st2 := db_update_generation "completed" (some video_url) none st
            (st2, { refund := 0, redebits := 0, notified := true }, CallbackResult.ok)
          else
            let st2 := db_update_generation "completed" (some video_url) none st
            (st2, noEffects, CallbackResult.ok)
        | none => (st, noEffects, CallbackResult.ok)
      else if body.state = some "fail" then
        let fail_msg := body.failMsg.getD "Unknown error"
        if generation.status = "completed" then (st, noEffects, CallbackResult.ok)
        else
          let st1 := db_update_generation "fail" none (some fail_msg) st
          if generation.status = "processing" ∨ generation.status = "pending" then
            let r := update_user_balance generation.cost st1
            (r.2, { refund := if r.1 then generation.cost else 0, redebits := 0,
                    notified := true }, CallbackResult.ok)
          else (st1, noEffects, CallbackResult.ok)
      else (st, noEffects, CallbackResult.ok)
  else (st, noEffects, CallbackResult.errorIncomplete)

/-! ### Background polling loop (src/handlers/generate.py,
poll_task_and_send_result) -/

/-- One provider status response as observed by a poll attempt.  A poll
attempt whose HTTP call raises is modelled by a state that is neither
"success" nor "fail" (the source logs and continues either way). -/
structure PollResp where
  state : Option String
  resultJson : ResultJson
  failMsg : Option String
deriving DecidableEq

/-- The attempt budget of the polling loop (source constant 60). -/
def max_attempts : Nat := 60

/-- The fixed inter-attempt delay in seconds (source constant 5). -/
def poll_interval : Nat := 5

/-- One iteration body of the polling loop on the response it observed:
some (new state, effects) when the loop returns (terminal handling ran),
none when it continues to the next attempt.  On "success" the loop returns
only when parse_task_result yields a non-empty URL list (a missing
resultJson parses to an empty list and a malformed one to no list, and both
make the loop continue); it then writes status "success" with the first
URL.  On "fail" it writes status "fail" with the failure message and
unconditionally credits the cost back. -/
def poll_observe (cost : Int) (resp : PollResp) (st : DBState) :
    Option (DBState × Effects) :=
  if resp.state = some "success" then
    match resp.resultJson with
    | ResultJson.parsed (u :: _) =>
      some (db_update_generation "success" (some u) none st,
            { refund := 0, redebits := 0, notified := true })
    | _ => none
  else if resp.state = some "fail" then
    let error_msg := resp.failMsg.getD "Unknown error"
    let st1 := db_update_generation "fail" none (some error_msg) st
    let r := update_user_balance cost st1
    some (r.2, { refund := if r.1 then cost else 0, redebits := 0, notified := true })
  else none

/-- Result of a whole polling-loop run: final database state, the number of
status queries made, the refund credited, and whether the timeout path ran. -/
structure PollOut where
  st : DBState
  queries : Nat
  refund : Int
  timed_out : Bool
deriving DecidableEq

/-- The polling loop, by recursion on the remaining attempt budget; i is
the index of the next attempt (and the number of queries already made).
When the budget runs out the timeout path writes status "fail" with message
"Timeout" and credits the cost back, exactly like an observed fail. -/
def poll_aux (cost : Int) (env : Nat → PollResp) (st : DBState) : Nat → Nat → PollOut
  | i, 0 =>
    let st1 := db_update_generation "fail" none (some "Timeout") st
    let r := update_user_balance cost st1
    { st := r.2, queries := i, refund := if r.1 then cost else 0, timed_out := true }
  | i, Nat.succ fuel =>
    match poll_observe cost (env i) st with
    | some (st1, eff) => { st := st1, queries := i + 1, refund := eff.refund, timed_out := false }
    | none => poll_aux cost env st (i + 1) fuel

/-- Embedding of poll_task_and_send_result: up to max_attempts poll
attempts against the environment env (the provider's response at each
attempt), then the timeout path. -/
def poll_task_and_send_result (cost : Int) (env : Nat → PollResp) (st : DBState) : PollOut :=
  poll_aux cost env st 0 max_attempts

/-! ### Confirm step (src/handlers/generate.py, t2v_confirm) -/

/-- Outcome of the gateway submission call inside the confirm handler:
a response (whose data.taskId may be absent — the source then raises and
lands in the same except branch) or a raised request error. -/
inductive GatewayOutcome
  | ok (taskId : Option String)
  | error
deriving DecidableEq

/-- The user-visible outcome of the confirm handler. -/
inductive ConfirmResult
  | insufficient_balance
  | started
  | failed
deriving DecidableEq

/-- Result of the confirm handler: database state, outcome, and whether the
wizard session was cleared (every branch of the source clears it). -/
structure ConfirmOut where
  st : DBState
  result : ConfirmResult
  session_cleared : Bool
deriving DecidableEq

/-- Embedding of t2v_confirm's settlement logic: debit the cost (ending the
session with an insufficient-balance message when the debit is refused);
then on a submission response carrying a taskId create the generation row
with status "pending"; when the response has no taskId or the call raised,
credit the cost back and end the session with a generic error.  The chat
message edits are not part of the database state. -/
def t2v_confirm (cost : Int) (gw : GatewayOutcome) (st : DBState) : ConfirmOut :=
  let d := deduct_balance cost st
  if d.1 = false then
    { st := st, result := ConfirmResult.insufficient_balance, session_cleared := true }
  else
    match gw with
    | GatewayOutcome.ok (some _) =>
      { st := { d.2 with gen := some { status := "pending", cost := cost,
                                       video_url := none, error_message := none } },
        result := ConfirmResult.started, session_cleared := true }
    | GatewayOutcome.ok none =>
      { st := (update_user_balance cost d.2).2, result := ConfirmResult.failed,
        session_cleared := true }
    | GatewayOutcome.error =>
      { st := (update_user_balance cost d.2).2, result := ConfirmResult.failed,
        session_cleared := true }

/-! ### Concrete fixtures used by the closed theorems -/

/-- A freshly created generation row: status "pending", cost 55. -/
def pendingGen : Generation :=
  { status := "pending", cost := 55, video_url := none, error_message := none }

/-- A generation row the polling loop has settled as successful. -/
def successGen : Generation :=
  { status := "success", cost := 55, video_url := some "u1", error_message := none }

/-- A generation row settled as failed (and already refunded). -/
def failGen : Generation :=
  { status := "fail", cost := 55, video_url := none, error_message := some "Timeout" }

/-- A complete webhook body reporting a provider failure. -/
def failBody : CallbackBody :=
  { taskId := some "task-1", state := some "fail", resultJson := ResultJson.missing,
    failMsg := some "boom" }

/-- A complete webhook body reporting success with one result URL. -/
def successBody : CallbackBody :=
  { taskId := some "task-1", state := some "success",
    resultJson := ResultJson.parsed ["u1"], failMsg := none }

/-- A provider that answers "waiting" forever. -/
def waitingEnv : Nat → PollResp :=
  fun _ => { state := some "waiting", resultJson := ResultJson.missing, failMsg := none }

/-- A provider that answers "fail" at every attempt. -/
def failEnv : Nat → PollResp :=
  fun _ => { state := some "fail", resultJson := ResultJson.missing, failMsg := some "boom" }

/-- An empty Motion-Control session sitting at the video step. -/
def mcVideoSession : MCSession :=
  { image_url := some "img", video_url := none, video_duration := none,
    prompt := none, step := MCStep.waiting_video }

/-! ### Claims about the pricing calculator -/

/-- C6: the pricing calculator is pure and returns exactly 55/110/110/220
for the (5s,10s) x (no sound, sound) table, 30 for a 4-second 720p
Motion-Control clip (rounded up to the 5-second minimum at 6 per second)
and 72 for an 8-second 1080p clip (9 per second); in general the
Motion-Control price is max(5, duration) times the per-second rate, and
1080p is priced strictly above 720p for every duration. -/
theorem C6_pricing_table_exact :
    KlingPricing.get_t2v_i2v_price 5 false = 55 ∧
    KlingPricing.get_t2v_i2v_price 10 false = 110 ∧
    KlingPricing.get_t2v_i2v_price 5 true = 110 ∧
    KlingPricing.get_t2v_i2v_price 10 true = 220 ∧
    KlingPricing.get_motion_control_price 4 "720p" = 30 ∧
    KlingPricing.get_motion_control_price 8 "1080p" = 72 ∧
    (∀ d : Int, KlingPricing.get_motion_control_price d "720p" = max 5 d * 6) ∧
    (∀ d : Int, KlingPricing.get_motion_control_price d "1080p" = max 5 d * 9) ∧
    (∀ d : Int, KlingPricing.get_motion_control_price d "720p" <
      KlingPricing.get_motion_control_price d "1080p") := by
  refine ⟨by decide, by decide, by decide, by decide, by decide, by decide, ?_, ?_, ?_⟩
  · intro d
    simp [KlingPricing.get_motion_control_price, KlingPricing.MC_MIN_DURATION,
      KlingPricing.MC_720P_PER_SEC]
  · intro d
    simp [KlingPricing.get_motion_control_price, KlingPricing.MC_MIN_DURATION,
      KlingPricing.MC_1080P_PER_SEC]
  · intro d
    have h5 : (5 : Int) ≤ max 5 d := le_max_left _ _
    have hpos : (0 : Int) < max 5 d := lt_of_lt_of_le (by norm_num) h5
    simp only [KlingPricing.get_motion_control_price, KlingPricing.MC_MIN_DURATION,
      KlingPricing.MC_720P_PER_SEC, KlingPricing.MC_1080P_PER_SEC]
    norm_num
    exact mul_lt_mul_of_pos_left (by norm_num) hpos

/-- Witness for C6: at the concrete duration 7, 1080p Motion-Control is
priced strictly above 720p. -/
theorem C6_pricing_table_exact_witness :
    KlingPricing.get_motion_control_price 7 "720p" <
      KlingPricing.get_motion_control_price 7 "1080p" :=
  C6_pricing_table_exact.2.2.2.2.2.2.2.2 7

/-- C8: for every duration other than 5 and 10 the T2V/I2V price falls back
to the 5-second row for the given sound flag; the input is not rejected. -/
theorem C8_duration_fallback (d : Int) (with_sound : Bool)
    (h5 : d ≠ 5) (h10 : d ≠ 10) :
    KlingPricing.get_t2v_i2v_price d with_sound =
      KlingPricing.get_t2v_i2v_price 5 with_sound := by
  simp [KlingPricing.get_t2v_i2v_price, h5, h10]

/-- Witness for C8 at the concrete duration 7 with sound on. -/
theorem C8_duration_fallback_witness :
    KlingPricing.get_t2v_i2v_price 7 true = KlingPricing.get_t2v_i2v_price 5 true :=
  C8_duration_fallback 7 true (by decide) (by decide)

/-! ### Claim about the Motion-Control video step -/

/-- C7: a reference video of duration 2 or 31 seconds is rejected (the
session is unchanged, so the same step is re-prompted and nothing is
stored), while every duration in [3,30] — in particular 3 and 30 — is
accepted: the URL and duration are stored and the flow advances. -/
theorem C7_reference_video_duration (s : MCSession) (u : String) :
    mc_video_received (some 2) u s = s ∧
    mc_video_received (some 31) u s = s ∧
    (∀ d : Int, 3 ≤ d → d ≤ 30 →
      mc_video_received (some d) u s =
        { s with video_url := some u, video_duration := some d,
                 step := MCStep.waiting_prompt }) := by
  refine ⟨by norm_num [mc_video_received], by norm_num [mc_video_received], ?_⟩
  intro d h3 h30
  have h1 : ¬ (d < 3) := not_lt.mpr h3
  have h2 : ¬ (d > 30) := not_lt.mpr h30
  simp [mc_video_received, h1, h2]

/-- Witness for C7: duration 2 is rejected and duration 3 accepted on the
concrete session fixture. -/
theorem C7_reference_video_duration_witness :
    mc_video_received (some 2) "u1" mcVideoSession = mcVideoSession ∧
    mc_video_received (some 3) "u1" mcVideoSession =
      { mcVideoSession with video_url := some "u1", video_duration := some 3,
                            step := MCStep.waiting_prompt } := by
  have h := C7_reference_video_duration mcVideoSession "u1"
  exact ⟨h.1, h.2.2 3 (by decide) (by decide)⟩

/-! ### Claim about prompt truncation in the gateway payloads -/

/-- C10: in all three modes the prompt field of the gateway payload is the
first 2500 characters of the collected prompt — an over-long prompt is
truncated, never rejected (the builders are total), and an empty (missing
or skipped) prompt is sent as the empty string. -/
theorem C10_prompt_truncated (p : List Char) (img vid orient mode dur : String) (snd : Bool) :
    (create_text_to_video p dur snd).prompt = p.take 2500 ∧
    (create_image_to_video img p dur snd).prompt = p.take 2500 ∧
    (create_motion_control img vid p orient mode).prompt = p.take 2500 ∧
    (create_text_to_video p dur snd).prompt.length ≤ 2500 ∧
    (create_text_to_video p dur snd).prompt <+: p ∧
    (create_text_to_video [] dur snd).prompt = [] ∧
    (create_image_to_video img [] dur snd).prompt = [] ∧
    (create_motion_control img vid [] orient mode).prompt = [] := by
  refine ⟨rfl, ?_, ?_, ?_, ?_, rfl, rfl, rfl⟩
  · cases p <;> simp [create_image_to_video]
  · cases p <;> simp [create_motion_control]
  · exact List.length_take_le 2500 p
  · simpa [create_text_to_video] using List.take_prefix 2500 p

/-- Witness for C10 on a 2501-character prompt and on the empty prompt. -/
theorem C10_prompt_truncated_witness :
    (create_text_to_video (List.replicate 2501 'a') "5" false).prompt =
      (List.replicate 2501 'a').take 2500 ∧
    (create_motion_control "i" "v" [] "video" "720p").prompt = [] := by
  have h1 := C10_prompt_truncated (List.replicate 2501 'a') "i" "v" "video" "720p" "5" false
  have h2 := C10_prompt_truncated [] "i" "v" "video" "720p" "5" false
  exact ⟨h1.1, h2.2.2.2.2.2.2.2⟩

/-! ### Claims about the reconciler: webhook handler and polling loop -/

/-- C1 (refutation of the exactly-once refund invariant): starting from a
pending generation of cost 55 and post-debit balance 45, a webhook Fail
settles the request (status "fail") and refunds once (balance 100, the
pre-confirm value) — but the still-running polling loop, which checks no
status before acting, then observes the provider's fail state and credits
the cost a second time: balance 155, a second refund of 55 for a request
already in a terminal state. -/
theorem C1_second_fail_double_refund :
    (kling_callback failBody (some "1") { balance := 45, gen := some pendingGen }).1.gen =
      some { status := "fail", cost := 55, video_url := none, error_message := some "boom" } ∧
    (kling_callback failBody (some "1") { balance := 45, gen := some pendingGen }).1.balance
      = 100 ∧
    (kling_callback failBody (some "1") { balance := 45, gen := some pendingGen }).2.1.refund
      = 55 ∧
    (poll_task_and_send_result 55 failEnv
        (kling_callback failBody (some "1") { balance := 45, gen := some pendingGen }).1).st.balance
      = 155 ∧
    (poll_task_and_send_result 55 failEnv
        (kling_callback failBody (some "1") { balance := 45, gen := some pendingGen }).1).refund
      = 55 := by
  decide

/-- C2 (refutation of sticky success): on a generation the polling loop
already settled with status "success", a webhook Fail is not ignored: the
handler only preserves status "completed", so it overwrites "success" with
"fail" (keeping the stored video URL, issuing no refund and sending no
notification). -/
theorem C2_fail_after_success_downgrades :
    (kling_callback failBody (some "1") { balance := 45, gen := some successGen }).1.gen =
      some { status := "fail", cost := 55, video_url := some "u1",
             error_message := some "boom" } ∧
    (kling_callback failBody (some "1") { balance := 45, gen := some successGen }).1.balance
      = 45 ∧
    (kling_callback failBody (some "1") { balance := 45, gen := some successGen }).2.1
      = noEffects := by
  decide

/-- C3: late recovery — on a generation with status "fail", a complete
webhook Success carrying a non-empty result URL writes status "completed"
with that URL, attempts exactly one re-debit of the cost, issues no refund
and returns ok; when the balance is insufficient the re-debit is refused
and the balance is unchanged, but the request still becomes "completed"
(the transition does not fail). -/
theorem C3_late_recovery_redebits_once (st : DBState) (g : Generation) (body : CallbackBody)
    (gid : Option String) (v : String)
    (hg : st.gen = some g) (hfail : g.status = "fail")
    (htask : truthy body.taskId = true) (hstate : body.state = some "success")
    (hgid : truthy gid = true)
    (hurl : extract_video_url body.resultJson = some v) (hv : v ≠ "") :
    (kling_callback body gid st).1.gen =
      some { g with status := "completed", video_url := some v } ∧
    (kling_callback body gid st).2.1.redebits = 1 ∧
    (kling_callback body gid st).2.1.refund = 0 ∧
    (kling_callback body gid st).2.2 = CallbackResult.ok ∧
    (g.cost ≤ st.balance → (kling_callback body gid st).1.balance = st.balance - g.cost) ∧
    (st.balance < g.cost → (kling_callback body gid st).1.balance = st.balance) := by
  have hgate : (truthy body.taskId && truthy body.state && truthy gid) = true := by
    rw [htask, hstate, hgid]; rfl
  unfold kling_callback
  rw [hgate, hg, hstate, hurl]
  by_cases hb : st.balance + -g.cost < 0 <;>
    simp [hfail, hv, hb, hg, deduct_balance, update_user_balance, db_update_generation,
      apply_update_generation, truthy] <;>
    omega

/-- Witness for C3: a generation in status "fail" with cost 55 and balance
only 10 — the re-debit is refused, the balance stays 10, and the request
still becomes "completed" with the delivered URL. -/
theorem C3_late_recovery_witness :
    (kling_callback successBody (some "1") { balance := 10, gen := some failGen }).1.gen =
      some { failGen with status := "completed", video_url := some "u1" } ∧
    (kling_callback successBody (some "1") { balance := 10, gen := some failGen }).2.1.redebits
      = 1 ∧
    (kling_callback successBody (some "1") { balance := 10, gen := some failGen }).1.balance
      = 10 := by
  have h := C3_late_recovery_redebits_once { balance := 10, gen := some failGen } failGen
    successBody (some "1") "u1" rfl rfl (by decide) rfl (by decide) rfl (by decide)
  exact ⟨h.1, h.2.1, h.2.2.2.2.2 (by decide)⟩

/-- C9: a webhook callback with state "success" whose payload yields no
result URL (resultJson missing, malformed, or with an empty resultUrls
list) mutates nothing, whatever the current state of the database: the
stored generation and the balance are untouched and no refund, re-debit or
notification happens. -/
theorem C9_success_without_url_no_mutation (body : CallbackBody) (gid : Option String)
    (st : DBState) (hstate : body.state = some "success")
    (hurl : extract_video_url body.resultJson = none) :
    (kling_callback body gid st).1 = st ∧
    (kling_callback body gid st).2.1 = noEffects := by
  unfold kling_callback
  rw [hstate, hurl]
  split
  · split
    · exact ⟨rfl, rfl⟩
    · simp
  · exact ⟨rfl, rfl⟩

/-- Witness for C9: a malformed resultJson on a pending generation leaves
the state exactly as it was. -/
theorem C9_success_without_url_witness :
    (kling_callback
        { taskId := some "task-1", state := some "success",
          resultJson := ResultJson.malformed, failMsg := none }
        (some "1") { balance := 45, gen := some pendingGen }).1 =
      { balance := 45, gen := some pendingGen } ∧
    (kling_callback
        { taskId := some "task-1", state := some "success",
          resultJson := ResultJson.malformed, failMsg := none }
        (some "1") { balance := 45, gen := some pendingGen }).2.1 = noEffects :=
  C9_success_without_url_no_mutation _ _ _ rfl rfl

/-- Helper: the polling loop makes at most i + fuel status queries when
started at attempt index i with fuel attempts left. -/
theorem poll_aux_queries_le (cost : Int) (env : Nat → PollResp) (st : DBState) :
    ∀ fuel i, (poll_aux cost env st i fuel).queries ≤ i + fuel := by
  intro fuel
  induction fuel with
  | zero => intro i; simp [poll_aux]
  | succ n ih =>
    intro i
    rw [poll_aux]
    cases h : poll_observe cost (env i) st with
    | some p => simp
    | none =>
      simp only
      have := ih (i + 1)
      omega

/-- Helper: when no attempt in the window returns, the polling loop runs the
timeout path on the unchanged state after exactly i + fuel queries. -/
theorem poll_aux_exhausted (cost : Int) (env : Nat → PollResp) (st : DBState) :
    ∀ fuel i, (∀ j, j < fuel → poll_observe cost (env (i + j)) st = none) →
      poll_aux cost env st i fuel =
        { st := (update_user_balance cost
                  (db_update_generation "fail" none (some "Timeout") st)).2,
          queries := i + fuel,
          refund := if (update_user_balance cost
                      (db_update_generation "fail" none (some "Timeout") st)).1
                    then cost else 0,
          timed_out := true } := by
  intro fuel
  induction fuel with
  | zero => intro i h; simp [poll_aux]
  | succ n ih =>
    intro i h
    have h0 : poll_observe cost (env i) st = none := by
      have := h 0 (Nat.succ_pos n)
      simpa using this
    rw [poll_aux, h0]
    have hrest : ∀ j, j < n → poll_observe cost (env (i + 1 + j)) st = none := by
      intro j hj
      have e : i + 1 + j = i + (j + 1) := by omega
      rw [e]
      exact h (j + 1) (by omega)
    rw [ih (i + 1) hrest]
    have e2 : i + 1 + n = i + (n + 1) := by omega
    rw [e2]

/-- C4: the polling loop always terminates after at most max_attempts = 60
status queries separated by the fixed poll_interval = 5 second delay; if
every attempt observes a provider state that is neither "success" nor
"fail", the budget is exhausted and the loop runs the timeout path, which
behaves exactly like an explicit observed fail with message "Timeout"
(status written "fail", cost credited back). -/
theorem C4_poll_loop_terminates (cost : Int) (env : Nat → PollResp) (st : DBState) :
    max_attempts = 60 ∧ poll_interval = 5 ∧
    (poll_task_and_send_result cost env st).queries ≤ max_attempts ∧
    ((∀ i, i < max_attempts →
        (env i).state ≠ some "success" ∧ (env i).state ≠ some "fail") →
      (poll_task_and_send_result cost env st).timed_out = true ∧
      poll_observe cost
          { state := some "fail", resultJson := ResultJson.missing,
            failMsg := some "Timeout" } st =
        some ((poll_task_and_send_result cost env st).st,
              { refund := (poll_task_and_send_result cost env st).refund,
                redebits := 0, notified := true })) := by
  refine ⟨rfl, rfl, ?_, ?_⟩
  · have := poll_aux_queries_le cost env st max_attempts 0
    simpa [poll_task_and_send_result] using this
  · intro hnoterm
    have hobs : ∀ j, j < max_attempts → poll_observe cost (env (0 + j)) st = none := by
      intro j hj
      have hj2 := hnoterm j hj
      have e : 0 + j = j := Nat.zero_add j
      rw [e]
      unfold poll_observe
      rw [if_neg, if_neg]
      · exact hj2.2
      · exact hj2.1
    have key := poll_aux_exhausted cost env st max_attempts 0 hobs
    unfold poll_task_and_send_result
    rw [key]
    refine ⟨rfl, ?_⟩
    unfold poll_observe
    rw [if_neg (by decide), if_pos rfl]
    rfl

/-- Witness for C4: against a provider that answers "waiting" forever, the
loop makes at most 60 queries and ends in the timeout path with the cost
refunded (balance 45 back to 100). -/
theorem C4_poll_loop_terminates_witness :
    (poll_task_and_send_result 55 waitingEnv { balance := 45, gen := some pendingGen }).queries
      ≤ max_attempts ∧
    (poll_task_and_send_result 55 waitingEnv { balance := 45, gen := some pendingGen }).timed_out
      = true := by
  have h := C4_poll_loop_terminates 55 waitingEnv { balance := 45, gen := some pendingGen }
  have hno : ∀ i, i < max_attempts →
      (waitingEnv i).state ≠ some "success" ∧ (waitingEnv i).state ≠ some "fail" := by
    intro i _
    refine ⟨?_, ?_⟩ <;> simp [waitingEnv]
  exact ⟨h.2.2.1, (h.2.2.2 hno).1⟩

/-! ### Claim about the confirm step -/

/-- C5 counterexample: in the spec's end-to-end scenario (balance 100, cost
55, gateway submission fails) the balance is indeed refunded to 100, but no
generation record exists — the record is only created after a task id is
obtained — so the request's status is not "fail" as claimed: there is no
request at all. -/
theorem C5_gateway_fail_leaves_no_record :
    (t2v_confirm 55 GatewayOutcome.error { balance := 100, gen := none }).st.balance = 100 ∧
    (t2v_confirm 55 GatewayOutcome.error { balance := 100, gen := none }).st.gen = none ∧
    ¬ ((t2v_confirm 55 GatewayOutcome.error
        { balance := 100, gen := none }).st.gen.map Generation.status = some "fail") := by
  decide

/-- C5 (amended): if the gateway submission fails (a raised gateway error
or a response without a taskId) after the cost was debited at confirm time,
the pre-debited cost is refunded immediately — the balance returns to its
pre-confirm value — and the session ends with a generic failure; no
generation record has been created at that point, so no status is written. -/
theorem C5_gateway_fail_refunds (cost b : Int) (gw : GatewayOutcome)
    (h0 : 0 ≤ cost) (hb : cost ≤ b)
    (hgw : gw = GatewayOutcome.error ∨ gw = GatewayOutcome.ok none) :
    (t2v_confirm cost gw { balance := b, gen := none }).st.balance = b ∧
    (t2v_confirm cost gw { balance := b, gen := none }).st.gen = none ∧
    (t2v_confirm cost gw { balance := b, gen := none }).result = ConfirmResult.failed ∧
    (t2v_confirm cost gw { balance := b, gen := none }).session_cleared = true := by
  have h1 : ¬ (b + -cost < 0) := by omega
  have h2 : ¬ (b + -cost + cost < 0) := by omega
  have h3 : ¬ (b < 0) := by omega
  rcases hgw with h | h <;> subst h <;>
    simp [t2v_confirm, deduct_balance, update_user_balance, h1, h2, h3]

/-- Witness for C5 at the spec's concrete scenario: balance 100, cost 55,
gateway error — refunded to 100 and the confirm ends in failure. -/
theorem C5_gateway_fail_refunds_witness :
    (t2v_confirm 55 GatewayOutcome.error { balance := 100, gen := none }).st.balance = 100 ∧
    (t2v_confirm 55 GatewayOutcome.error
      { balance := 100, gen := none }).result = ConfirmResult.failed := by
  have h := C5_gateway_fail_refunds 55 100 GatewayOutcome.error (by decide) (by decide)
    (Or.inl rfl)
  exact ⟨h.1, h.2.2.1⟩

end KlingBot
